import Mathlib

/-!
Shallow embedding of the group-membership core of the CampusConnect Groups
repository: the `useGroups` hook (group creation, discovery, join, add member,
remove member), the `add_group_member` SQL helper function, and the row-level
security policies on the `groups` and `group_members` tables, together with
proofs of the behavioural properties claimed for them.

Identifiers are opaque ids modelled as `Nat`; timestamps are modelled as `Nat`
instants supplied by the caller.
-/

namespace CampusConnect

/-- Group visibility: the `visibility` column of `groups`,
`'public' | 'private'` (`pub` / `priv` here since `private` is reserved). -/
inductive Visibility where
  | pub
  | priv
deriving DecidableEq, Repr

/-- Membership role: the `role` column of `group_members`,
`'admin' | 'moderator' | 'member'`. -/
inductive Role where
  | admin
  | moderator
  | member
deriving DecidableEq, Repr

/-- A row of the `groups` table (the fields the membership core consults:
`id`, `created_by`, `visibility`). -/
structure Group where
  id : Nat
  created_by : Nat
  visibility : Visibility
deriving DecidableEq, Repr

/-- A row of the `group_members` table: `(group_id, user_id, role, joined_at)`. -/
structure GroupMember where
  group_id : Nat
  user_id : Nat
  role : Role
  joined_at : Nat
deriving DecidableEq, Repr

/-- The database state the membership core reads and writes: the `groups`
table and the `group_members` table, each as a list of rows in insertion
order (the queries order by `created_at`, which insertion order models). -/
structure DB where
  groups : List Group
  group_members : List GroupMember
deriving DecidableEq, Repr

/-- Typed failures of the membership operations, per the error taxonomy:
`Unauthenticated` (the hooks throw `'User already authenticated'` guards /
the SQL helper returns `'User not authenticated'`), `Unauthorized` (the SQL
helper returns `'Not authorized to add members to this group'`),
`AlreadyMember` (the SQL helper returns `'User is already a member of this
group'` / a unique-constraint violation on insert). -/
inductive GroupsError where
  | Unauthenticated
  | Unauthorized
  | AlreadyMember
deriving DecidableEq, Repr

/-- Does `groups` contain a row with `id = gid` and `created_by = uid`?
The creator check `SELECT 1 FROM groups WHERE id = target_group_id AND
created_by = current_user_id` of `add_group_member`. -/
def isCreator (db : DB) (gid uid : Nat) : Bool :=
  db.groups.any fun g => g.id == gid && g.created_by == uid

/-- The `public.is_member(gid, uid)` SQL helper (SECURITY DEFINER, so it sees
the whole table): does `group_members` contain the pair `(gid, uid)`? -/
def is_member (db : DB) (gid uid : Nat) : Bool :=
  db.group_members.any fun r => r.group_id == gid && r.user_id == uid

/-- The `public.is_group_public(gid)` SQL helper: does `groups` contain a row
with `id = gid` and `visibility = 'public'`? -/
def is_group_public (db : DB) (gid : Nat) : Bool :=
  db.groups.any fun g => g.id == gid && g.visibility == Visibility.pub

/-- The SELECT policy on `groups` ("Users can view groups they are members of
or public groups", fix_rls_recursion.sql): a `groups` row `g` is visible to
`uid` when `visibility = 'public'` OR `group_members` contains a row with
`group_id = g.id` and `user_id = uid` (`auth.uid()`). This is the `canView`
decision for user `uid` on group `g`. -/
def canView (db : DB) (g : Group) (uid : Nat) : Bool :=
  g.visibility == Visibility.pub ||
    db.group_members.any fun r => r.group_id == g.id && r.user_id == uid

/-- The SELECT policy on `group_members` ("Users can view group members
simple", fix_rls_recursion.sql): a `group_members` row `r` is visible to
`uid` when it is `uid`'s own membership (`user_id = auth.uid()`) OR its
group is public. -/
def memberRowVisible (db : DB) (r : GroupMember) (uid : Nat) : Bool :=
  r.user_id == uid ||
    db.groups.any fun g => g.id == r.group_id && g.visibility == Visibility.pub

/-- The `is_authorized` computation of the `add_group_member` SQL function:
the current user is the group's creator (Case 1), or `group_members` holds a
row for them in this group with `role IN ('admin', 'moderator')` (Case 2). -/
def canAddMember (db : DB) (gid actor : Nat) : Bool :=
  isCreator db gid actor ||
    db.group_members.any fun r =>
      r.group_id == gid && r.user_id == actor &&
        (r.role == Role.admin || r.role == Role.moderator)

/-- The `add_group_member(target_group_id, target_user_id, member_role)` SQL
function: reject a null `auth.uid()`; reject when `is_authorized` is false
(neither creator nor admin/moderator member); reject when the target pair is
already in `group_members`; otherwise insert the row. The function is
SECURITY DEFINER, so all its existence checks see the full tables. -/
def add_group_member (db : DB) (auth_uid : Option Nat)
    (target_group_id target_user_id : Nat) (member_role : Role) (now : Nat) :
    Except GroupsError DB :=
  match auth_uid with
  | none => Except.error GroupsError.Unauthenticated
  | some current_user_id =>
    if !canAddMember db target_group_id current_user_id then
      Except.error GroupsError.Unauthorized
    else if is_member db target_group_id target_user_id then
      Except.error GroupsError.AlreadyMember
    else
      Except.ok { db with group_members :=
        db.group_members ++ [⟨target_group_id, target_user_id, member_role, now⟩] }

/-- Modelled from the spec: the plain `INSERT` into `group_members`. The
table's `CREATE TABLE` (and so its constraint clause) is not in the
repository; the spec requires a uniqueness constraint on `(group, user)`
("enforce via a uniqueness constraint on (group, user), not via
check-then-insert alone"), and the client's upsert names
`onConflict: 'group_id,user_id'`, which presupposes that unique index. The
last INSERT policy in the migration history is the fully permissive
`WITH CHECK (true)`, so the insert fails exactly on a duplicate pair. -/
def insertMember (db : DB) (row : GroupMember) : Except GroupsError DB :=
  if is_member db row.group_id row.user_id then
    Except.error GroupsError.AlreadyMember
  else
    Except.ok { db with group_members := db.group_members ++ [row] }

/-- The `joinGroup(groupId)` client operation: throw when no user is
authenticated; otherwise insert `(groupId, user.id, 'member')` into
`group_members` and surface any insert error. -/
def joinGroup (db : DB) (auth_uid : Option Nat) (groupId : Nat) (now : Nat) :
    Except GroupsError DB :=
  match auth_uid with
  | none => Except.error GroupsError.Unauthenticated
  | some u => insertMember db ⟨groupId, u, Role.member, now⟩

/-- The upsert of `addMemberAlternative`: `onConflict: 'group_id,user_id'`
with `ignoreDuplicates: false`, so a row with the same `(group_id, user_id)`
pair has its `role` and `joined_at` overwritten in place, and an absent pair
is inserted. -/
def upsertMember (ms : List GroupMember) (row : GroupMember) : List GroupMember :=
  if ms.any (fun r => r.group_id == row.group_id && r.user_id == row.user_id) then
    ms.map fun r =>
      if r.group_id == row.group_id && r.user_id == row.user_id then
        { r with role := row.role, joined_at := row.joined_at }
      else r
  else
    ms ++ [row]

/-- The `addMemberAlternative(groupId, userId, role)` client operation:
upsert `(groupId, userId, role, now)` into `group_members`. -/
def addMemberAlternative (db : DB) (groupId userId : Nat) (role : Role) (now : Nat) :
    Except GroupsError DB :=
  Except.ok { db with group_members :=
    (upsertMember db.group_members ⟨groupId, userId, role, now⟩) }

/-- The `addMember(groupId, userId, role)` client operation: throw when no
user is authenticated; check for an existing member with a `maybeSingle()`
SELECT — that query runs under the `group_members` SELECT policy, so only
rows visible to the current user are found — and silently return (no error,
no write) when a row is found; otherwise attempt the plain insert, and on
its failure fall back to `addMemberAlternative`. -/
def addMember (db : DB) (auth_uid : Option Nat) (groupId userId : Nat)
    (role : Role) (now : Nat) : Except GroupsError DB :=
  match auth_uid with
  | none => Except.error GroupsError.Unauthenticated
  | some current =>
    if db.group_members.any (fun r =>
        r.group_id == groupId && r.user_id == userId &&
          memberRowVisible db r current) then
      Except.ok db
    else
      match insertMember db ⟨groupId, userId, role, now⟩ with
      | Except.ok db2 => Except.ok db2
      | Except.error _ => addMemberAlternative db groupId userId role now

/-- The `removeMember(groupId, userId)` client operation: throw when no user
is authenticated; otherwise `DELETE FROM group_members WHERE group_id =
groupId AND user_id = userId`. There is no authorization check: any
authenticated caller reaches the delete, and deleting zero rows is not an
error. -/
def removeMember (db : DB) (auth_uid : Option Nat) (groupId userId : Nat) :
    Except GroupsError DB :=
  match auth_uid with
  | none => Except.error GroupsError.Unauthenticated
  | some _ =>
    Except.ok { db with group_members :=
      db.group_members.filter fun r => !(r.group_id == groupId && r.user_id == userId) }

/-- The `createGroup(groupData)` client operation: throw when no user is
authenticated; insert the `groups` row; then try to add the creator as an
admin member via `add_group_member`, falling back to a direct insert; when
both attempts fail (the environment — in the repository's history, the
INSERT policy — rejects the writes, modelled by `memberInsertFails`), the
failure is caught and swallowed: the group row is kept and the call still
returns the group ("Group was still created successfully, but creator might
not be a member"). -/
def createGroup (db : DB) (auth_uid : Option Nat) (newGroupId : Nat)
    (visibility : Visibility) (memberInsertFails : Bool) (now : Nat) :
    Except GroupsError DB :=
  match auth_uid with
  | none => Except.error GroupsError.Unauthenticated
  | some u =>
    let db1 : DB := { db with groups := db.groups ++ [⟨newGroupId, u, visibility⟩] }
    if memberInsertFails then
      Except.ok db1
    else
      match add_group_member db1 (some u) newGroupId u Role.admin now with
      | Except.ok db2 => Except.ok db2
      | Except.error _ =>
        match insertMember db1 ⟨newGroupId, u, Role.admin, now⟩ with
        | Except.ok db2 => Except.ok db2
        | Except.error _ => Except.ok db1

/-- Is the user `uid` associated with group id `gid` — a member
(`membershipData`) or its creator (`createdGroups`)? The union
`[...new Set([...memberGroupIds, ...createdGroupIds])]` of
`fetchPublicGroups` tests exactly this. -/
def associated (db : DB) (uid gid : Nat) : Bool :=
  (db.group_members.any fun r => r.user_id == uid && r.group_id == gid) ||
    (db.groups.any fun g => g.created_by == uid && g.id == gid)

/-- The `fetchPublicGroups` client operation (discovery). Each of its reads
runs under the row-level security policies embedded above: the membership
query (`eq('user_id', user.id)`) returns the user's own rows, which always
satisfy the `group_members` SELECT policy's own-row clause; the
created-groups query (`eq('created_by', user.id)`) and the all-groups query
(no client-side visibility filter — "filter client-side") both run under
the `groups` SELECT policy `canView`, which returns only rows that are
public or among the user's memberships. The client then drops the rows
whose id is in the collected member/created id set — applying no
visibility test of its own — takes the first twenty (`slice(0, 20)`), and
tags every surviving row with `visibility: 'public'` ("Assume public for
explore section"). -/
def fetchPublicGroups (db : DB) (uid : Nat) : List Group :=
  let memberGroupIds :=
    (db.group_members.filter fun r => r.user_id == uid).map GroupMember.group_id
  let createdGroupIds :=
    (db.groups.filter fun g => g.created_by == uid && canView db g uid).map Group.id
  let userGroupIds := memberGroupIds ++ createdGroupIds
  let allGroups := db.groups.filter fun g => canView db g uid
  let filteredPublicGroups :=
    (allGroups.filter fun g => !(userGroupIds.any (· == g.id))).take 20
  filteredPublicGroups.map fun g => { g with visibility := Visibility.pub }

/-- Invariant on the `group_members` table: at most one row per
`(group_id, user_id)` pair. -/
def pairUnique (ms : List GroupMember) : Prop :=
  List.Pairwise (fun a b => ¬(a.group_id = b.group_id ∧ a.user_id = b.user_id)) ms

/-- Empty database. -/
def dbEmpty : DB := ⟨[], []⟩

/-- One private group (id 1, creator 10) whose members are two plain
members, users 20 and 30. -/
def dbPrivMembers : DB :=
  ⟨[⟨1, 10, Visibility.priv⟩], [⟨1, 20, Role.member, 0⟩, ⟨1, 30, Role.member, 0⟩]⟩

/-- One public group (id 1, creator 10) with user 20 an admin member who
joined at instant 7. -/
def dbPubAdmin : DB :=
  ⟨[⟨1, 10, Visibility.pub⟩], [⟨1, 20, Role.admin, 7⟩]⟩

/-- One private group (id 1, creator 10) with user 20 an admin member who
joined at instant 3; the creator has no membership row of their own. -/
def dbPrivAdmin : DB :=
  ⟨[⟨1, 10, Visibility.priv⟩], [⟨1, 20, Role.admin, 3⟩]⟩

/-- One private group (id 1) created by user 100, and an empty
`group_members` table (the creator has no membership row). -/
def dbCreatorOnly : DB := ⟨[⟨1, 100, Visibility.priv⟩], []⟩

/-- One public group (id 1, creator 10) and no membership rows. -/
def dbPubEmpty : DB := ⟨[⟨1, 10, Visibility.pub⟩], []⟩

/-- Twenty-one public groups (ids 1..21) all created by user 99, and no
membership rows. -/
def dbManyGroups : DB :=
  ⟨(List.range 21).map (fun i => ⟨i + 1, 99, Visibility.pub⟩), []⟩

/-- C2 counterexample: in `dbCreatorOnly` user 100 created the private
group 1 but has no membership row, and the `groups` SELECT policy (`canView`)
denies them: the policy has no creator clause, so the claim's "or U is G's
creator" disjunct is false of the code. -/
theorem canView_creator_denied :
    dbCreatorOnly.groups = [⟨1, 100, Visibility.priv⟩] ∧
    Group.created_by ⟨1, 100, Visibility.priv⟩ = 100 ∧
    canView dbCreatorOnly ⟨1, 100, Visibility.priv⟩ 100 = false :=
  ⟨rfl, rfl, rfl⟩

/-- C2 (amended): `canView(G, U)` is true exactly when G's visibility is
public or the membership store contains the pair (G, U); the creator has no
implicit bypass, so for a private group whose creator has no membership row
even the creator cannot view, and for a private group with U neither
creator nor member `canView` is false. -/
theorem canView_iff_public_or_member (db : DB) (g : Group) (u : Nat) :
    canView db g u = true ↔
      g.visibility = Visibility.pub ∨
        ∃ r ∈ db.group_members, r.group_id = g.id ∧ r.user_id = u := by
  simp [canView, List.any_eq_true]

/-- Witness for the amended C2 statement at a concrete input: a public group
is viewable by a non-member. -/
theorem canView_iff_public_or_member_w :
    canView dbPubEmpty ⟨1, 10, Visibility.pub⟩ 55 = true :=
  (canView_iff_public_or_member dbPubEmpty ⟨1, 10, Visibility.pub⟩ 55).mpr (Or.inl rfl)

/-- C3: at the failing input where the environment rejects both membership
inserts (the helper RPC and the direct fallback insert), `createGroup`
swallows the failure and still reports success: the group row exists and no
membership row for the owner does — the group insert and the admin
membership insert are not atomic. -/
theorem createGroup_not_atomic :
    createGroup dbEmpty (some 10) 1 Visibility.priv true 0 =
      Except.ok ⟨[⟨1, 10, Visibility.priv⟩], []⟩ ∧
    is_member ⟨[⟨1, 10, Visibility.priv⟩], []⟩ 1 10 = false :=
  ⟨rfl, rfl⟩

/-- C4 counterexample: user 30 is a plain member of private group 1 —
not the creator, not an admin, and not the target — yet
`removeMember(1, 30→20)` succeeds and deletes user 20's row instead of
failing with `Unauthorized` and leaving the store unchanged. -/
theorem removeMember_unauthorized_succeeds :
    isCreator dbPrivMembers 1 30 = false ∧
    (dbPrivMembers.group_members.any fun r =>
      r.group_id == 1 && r.user_id == 30 && r.role == Role.admin) = false ∧
    (30 : Nat) ≠ 20 ∧
    removeMember dbPrivMembers (some 30) 1 20 =
      Except.ok ⟨dbPrivMembers.groups, [⟨1, 30, Role.member, 0⟩]⟩ :=
  ⟨rfl, rfl, by decide, rfl⟩

/-- C4 (amended): `removeMember` checks only that a caller is authenticated;
it performs no `canRemoveMember` gate, so every authenticated actor's call
succeeds and deletes exactly the rows of the pair (G, T), whoever the actor
is. -/
theorem removeMember_no_auth_gate (db : DB) (u gid t : Nat) :
    ∃ db2, removeMember db (some u) gid t = Except.ok db2 ∧
      db2.groups = db.groups ∧
      ∀ r : GroupMember, r ∈ db2.group_members ↔
        r ∈ db.group_members ∧ ¬(r.group_id = gid ∧ r.user_id = t) := by
  refine ⟨_, rfl, rfl, ?_⟩
  intro r
  simp only [List.mem_filter, Bool.not_eq_true', Bool.and_eq_true, beq_iff_eq,
    Bool.and_eq_false_iff, beq_eq_false_iff_ne, ne_eq]
  tauto

/-- C8: running `removeMember` twice on the same pair gives the same state
as running it once: the first call succeeds yielding a state with the pair
absent, and the second call on that state succeeds as a no-op, returning
the state unchanged rather than an error. -/
theorem removeMember_idempotent (db : DB) (u gid t : Nat) :
    ∃ db2, removeMember db (some u) gid t = Except.ok db2 ∧
      removeMember db2 (some u) gid t = Except.ok db2 ∧
      is_member db2 gid t = false := by
  refine ⟨_, rfl, ?_, ?_⟩
  · simp [removeMember, List.filter_filter]
  · simp only [is_member, List.any_eq_false, List.mem_filter]
    rintro r ⟨_, hr⟩
    simp_all
    tauto

/-- C10: in `dbPrivAdmin` user 20 is an admin of private group 1 (joined at
instant 3) and the creator 10 has no membership row; the creator's
`addMember(1, 20, 'member')` pre-check cannot see user 20's row (private
group, someone else's row), the plain insert then fails on the duplicate
pair, and the upsert fallback overwrites the existing row's `role`
(admin → member) and `joined_at` (3 → 9). -/
theorem addMember_fallback_overwrites :
    dbPrivAdmin.group_members = [⟨1, 20, Role.admin, 3⟩] ∧
    insertMember dbPrivAdmin ⟨1, 20, Role.member, 9⟩ =
      Except.error GroupsError.AlreadyMember ∧
    addMember dbPrivAdmin (some 10) 1 20 Role.member 9 =
      Except.ok ⟨dbPrivAdmin.groups, [⟨1, 20, Role.member, 9⟩]⟩ :=
  ⟨rfl, rfl, rfl⟩

/-- C1: the `add_group_member` authorization decision holds exactly when the
actor is the group's creator or the membership store holds a row for the
actor in the group with role admin or moderator; when it does not hold —
in particular for an actor whose only role is plain member — the add
attempt is rejected as `Unauthorized`. -/
theorem canAddMember_iff_creator_or_mod (db : DB) (gid u t : Nat) (role : Role) (now : Nat) :
    (canAddMember db gid u = true ↔
      (∃ g ∈ db.groups, g.id = gid ∧ g.created_by = u) ∨
        ∃ r ∈ db.group_members, r.group_id = gid ∧ r.user_id = u ∧
          (r.role = Role.admin ∨ r.role = Role.moderator)) ∧
    (canAddMember db gid u = false →
      add_group_member db (some u) gid t role now =
        Except.error GroupsError.Unauthorized) := by
  constructor
  · simp [canAddMember, isCreator, List.any_eq_true, and_assoc]
  · intro h
    simp [add_group_member, h]

/-- Witness for C1 at a concrete input: in `dbPrivMembers` user 20 is a
plain member of group 1, and their attempt to add user 40 is rejected as
`Unauthorized`. -/
theorem canAddMember_iff_creator_or_mod_w :
    add_group_member dbPrivMembers (some 20) 1 40 Role.member 0 =
      Except.error GroupsError.Unauthorized :=
  (canAddMember_iff_creator_or_mod dbPrivMembers 1 20 40 Role.member 0).2 rfl

/-- C5 counterexample: in `dbPubAdmin` the pair (1, 20) is already present
and actor 10 is the creator (authorized), yet the client `addMember`
returns plain success with the store unchanged — a silent success, not the
typed failure `AlreadyMember` the claim requires. -/
theorem addMember_present_silent_success :
    is_member dbPubAdmin 1 20 = true ∧
    canAddMember dbPubAdmin 1 10 = true ∧
    addMember dbPubAdmin (some 10) 1 20 Role.member 9 = Except.ok dbPubAdmin :=
  ⟨rfl, rfl, rfl⟩

/-- C5 (amended): when the membership store already contains the pair
(G, T), the SQL helper `add_group_member` (for an authorized actor) fails
with the typed failure `AlreadyMember`, while the client `addMember`
returns success instead of an error; when the pair is absent, `addMember`
inserts the row. -/
theorem addMember_already_member_behavior (db : DB) (u gid t : Nat) (role : Role) (now : Nat) :
    (is_member db gid t = true →
      (canAddMember db gid u = true →
        add_group_member db (some u) gid t role now =
          Except.error GroupsError.AlreadyMember) ∧
      ∃ db2, addMember db (some u) gid t role now = Except.ok db2) ∧
    (is_member db gid t = false →
      addMember db (some u) gid t role now =
        Except.ok { db with group_members := db.group_members ++ [⟨gid, t, role, now⟩] }) := by
  constructor
  · intro hmem
    constructor
    · intro hauth
      simp [add_group_member, hauth, hmem]
    · unfold addMember
      cases hvis : db.group_members.any fun r =>
          r.group_id == gid && r.user_id == t && memberRowVisible db r u
      · simp [hvis, insertMember, hmem, addMemberAlternative]
      · simp [hvis]
  · intro hmem
    have hchk : (db.group_members.any fun r =>
        r.group_id == gid && r.user_id == t && memberRowVisible db r u) = false := by
      rw [is_member, List.any_eq_false] at hmem
      rw [List.any_eq_false]
      intro r hr hcontra
      exact hmem r hr (by
        rw [Bool.and_eq_true, Bool.and_eq_true] at hcontra
        simp [hcontra.1.1, hcontra.1.2])
    simp [addMember, hchk, insertMember, hmem]

/-- Witness for the amended C5 statement at a concrete input: the helper
rejects re-adding the already present user 20 with `AlreadyMember`. -/
theorem addMember_already_member_behavior_w :
    add_group_member dbPubAdmin (some 10) 1 20 Role.member 9 =
      Except.error GroupsError.AlreadyMember :=
  ((addMember_already_member_behavior dbPubAdmin 10 1 20 Role.member 9).1 rfl).1 rfl

/-- C6: joining a public group the user is not yet in succeeds and inserts
a membership row with role member, and a second join of the now-present
pair fails with `AlreadyMember`. -/
theorem joinGroup_then_rejoin (db : DB) (gid u now now2 : Nat)
    (_hpub : is_group_public db gid = true) (habs : is_member db gid u = false) :
    ∃ db2, joinGroup db (some u) gid now = Except.ok db2 ∧
      GroupMember.mk gid u Role.member now ∈ db2.group_members ∧
      joinGroup db2 (some u) gid now2 = Except.error GroupsError.AlreadyMember := by
  refine ⟨{ db with group_members := db.group_members ++ [⟨gid, u, Role.member, now⟩] },
    ?_, ?_, ?_⟩
  · simp [joinGroup, insertMember, habs]
  · simp
  · simp [joinGroup, insertMember, is_member, List.any_append]

/-- Witness for C6 at a concrete input: user 5 joins the public group 1 of
`dbPubEmpty`, and a second join fails with `AlreadyMember`. -/
theorem joinGroup_then_rejoin_w :
    ∃ db2, joinGroup dbPubEmpty (some 5) 1 4 = Except.ok db2 ∧
      GroupMember.mk 1 5 Role.member 4 ∈ db2.group_members ∧
      joinGroup db2 (some 5) 1 8 = Except.error GroupsError.AlreadyMember :=
  joinGroup_then_rejoin dbPubEmpty 1 5 4 8 rfl rfl

/-- Filtering the membership table preserves the at-most-one-row-per-pair
invariant. -/
theorem pairUnique_filter (p : GroupMember → Bool) (ms : List GroupMember)
    (h : pairUnique ms) : pairUnique (ms.filter p) :=
  List.Pairwise.sublist (List.filter_sublist ms) h

/-- Appending a row whose pair is absent preserves the invariant. -/
theorem pairUnique_append (ms : List GroupMember) (row : GroupMember)
    (h : pairUnique ms)
    (habs : (ms.any fun r => r.group_id == row.group_id && r.user_id == row.user_id) = false) :
    pairUnique (ms ++ [row]) := by
  rw [pairUnique, List.pairwise_append]
  refine ⟨h, List.pairwise_singleton _ _, ?_⟩
  intro a ha b hb
  rw [List.any_eq_false] at habs
  have hab := habs a ha
  rw [List.mem_singleton] at hb
  subst hb
  simp only [Bool.and_eq_true, beq_iff_eq] at hab
  tauto

/-- The conflict-update of the upsert does not change a row's pair. -/
theorem upsert_update_keeps_pair (row c : GroupMember) :
    ((if c.group_id == row.group_id && c.user_id == row.user_id then
        { c with role := row.role, joined_at := row.joined_at } else c).group_id
      = c.group_id) ∧
    ((if c.group_id == row.group_id && c.user_id == row.user_id then
        { c with role := row.role, joined_at := row.joined_at } else c).user_id
      = c.user_id) := by
  split <;> exact ⟨rfl, rfl⟩

/-- The upsert preserves the invariant: it either updates the conflicting
row in place (keeping every row's pair) or appends an absent pair. -/
theorem pairUnique_upsert (ms : List GroupMember) (row : GroupMember)
    (h : pairUnique ms) : pairUnique (upsertMember ms row) := by
  unfold upsertMember
  cases hpres : ms.any fun r => r.group_id == row.group_id && r.user_id == row.user_id
  · simp only [Bool.false_eq_true, if_false]
    exact pairUnique_append ms row h hpres
  · simp only [if_true]
    rw [pairUnique, List.pairwise_map]
    refine h.imp ?_
    intro a b hab hcon
    apply hab
    rcases hcon with ⟨h1, h2⟩
    rw [(upsert_update_keeps_pair row a).1, (upsert_update_keeps_pair row b).1] at h1
    rw [(upsert_update_keeps_pair row a).2, (upsert_update_keeps_pair row b).2] at h2
    exact ⟨h1, h2⟩

/-- A successful plain insert preserves the invariant. -/
theorem pairUnique_insertMember (db db2 : DB) (row : GroupMember)
    (h : pairUnique db.group_members)
    (hok : insertMember db row = Except.ok db2) : pairUnique db2.group_members := by
  unfold insertMember at hok
  cases hmem : is_member db row.group_id row.user_id
  · rw [hmem] at hok
    simp only [Bool.false_eq_true, if_false, Except.ok.injEq] at hok
    subst hok
    exact pairUnique_append _ _ h hmem
  · rw [hmem] at hok
    simp at hok

/-- A successful `add_group_member` call preserves the invariant. -/
theorem pairUnique_add_group_member (db db2 : DB) (auth_uid : Option Nat)
    (gid t : Nat) (role : Role) (now : Nat)
    (h : pairUnique db.group_members)
    (hok : add_group_member db auth_uid gid t role now = Except.ok db2) :
    pairUnique db2.group_members := by
  unfold add_group_member at hok
  split at hok
  · exact absurd hok (by simp)
  · split at hok
    · exact absurd hok (by simp)
    · split at hok
      · exact absurd hok (by simp)
      · rename_i hm
        cases hok
        have hm2 : is_member db gid t = false := by
          cases hval : is_member db gid t
          · rfl
          · exact absurd hval hm
        exact pairUnique_append _ _ h hm2

/-- A successful client `addMember` call preserves the invariant, on each of
its three paths (silent skip, plain insert, upsert fallback). -/
theorem pairUnique_addMember (db db2 : DB) (auth_uid : Option Nat)
    (gid t : Nat) (role : Role) (now : Nat)
    (h : pairUnique db.group_members)
    (hok : addMember db auth_uid gid t role now = Except.ok db2) :
    pairUnique db2.group_members := by
  unfold addMember at hok
  split at hok
  · exact absurd hok (by simp)
  · split at hok
    · cases hok
      exact h
    · split at hok
      · rename_i dbx hins
        cases hok
        exact pairUnique_insertMember _ _ _ h hins
      · unfold addMemberAlternative at hok
        cases hok
        exact pairUnique_upsert _ _ h

/-- C7: the membership store keeps at most one row per (group, user) pair:
every operation of the core — `joinGroup`, `addMember` (all its fallback
paths), `add_group_member`, `removeMember` and `createGroup` — maps a state
satisfying the invariant to a state satisfying it. -/
theorem core_ops_preserve_pairUnique (db : DB) (h : pairUnique db.group_members)
    (auth_uid : Option Nat) (gid t nid now : Nat) (role : Role) (vis : Visibility)
    (fails : Bool) :
    (∀ db2, joinGroup db auth_uid gid now = Except.ok db2 →
      pairUnique db2.group_members) ∧
    (∀ db2, addMember db auth_uid gid t role now = Except.ok db2 →
      pairUnique db2.group_members) ∧
    (∀ db2, add_group_member db auth_uid gid t role now = Except.ok db2 →
      pairUnique db2.group_members) ∧
    (∀ db2, removeMember db auth_uid gid t = Except.ok db2 →
      pairUnique db2.group_members) ∧
    (∀ db2, createGroup db auth_uid nid vis fails now = Except.ok db2 →
      pairUnique db2.group_members) := by
  refine ⟨?_, ?_, ?_, ?_, ?_⟩
  · intro db2 hok
    cases auth_uid with
    | none => simp [joinGroup] at hok
    | some u => exact pairUnique_insertMember _ _ _ h hok
  · intro db2 hok
    exact pairUnique_addMember _ _ _ _ _ _ _ h hok
  · intro db2 hok
    exact pairUnique_add_group_member _ _ _ _ _ _ _ h hok
  · intro db2 hok
    cases auth_uid with
    | none => simp [removeMember] at hok
    | some u =>
      unfold removeMember at hok
      simp only [Except.ok.injEq] at hok
      subst hok
      exact pairUnique_filter _ _ h
  · intro db2 hok
    unfold createGroup at hok
    split at hok
    · exact absurd hok (by simp)
    · split at hok
      · cases hok
        exact h
      · simp only [] at hok
        split at hok
        · rename_i dbx hadd
          cases hok
          refine pairUnique_add_group_member _ _ _ _ _ _ _ ?_ hadd
          exact h
        · split at hok
          · rename_i dbx hins
            cases hok
            refine pairUnique_insertMember _ _ _ ?_ hins
            exact h
          · cases hok
            exact h

/-- Witness for C7 at a concrete input: joining the empty store yields a
store satisfying the invariant. -/
theorem core_ops_preserve_pairUnique_w :
    pairUnique [GroupMember.mk 1 5 Role.member 0] :=
  (core_ops_preserve_pairUnique dbEmpty List.Pairwise.nil (some 5) 1 0 0 0
    Role.member Visibility.pub false).1 ⟨[], [⟨1, 5, Role.member, 0⟩]⟩ rfl

/-- For a `groups` row `g` with no other row sharing its id, the combined
row test of `fetchPublicGroups` — readable under the groups SELECT policy
and not in the collected member/created id set — equals: stored public and
not `associated` with the user. -/
theorem discovery_row_test (db : DB) (u : Nat)
    (hinj : ∀ g2 ∈ db.groups, ∀ g3 ∈ db.groups, g2.id = g3.id → g2 = g3)
    (g : Group) (hg : g ∈ db.groups) :
    (!((((db.group_members.filter fun r => r.user_id == u).map GroupMember.group_id) ++
        ((db.groups.filter fun g2 => g2.created_by == u && canView db g2 u).map Group.id)).any
          (· == g.id)) && canView db g u) =
    (g.visibility == Visibility.pub && !(associated db u g.id)) := by
  have hM : (((db.group_members.filter fun r => r.user_id == u).map
      GroupMember.group_id).any (· == g.id)) =
      (db.group_members.any fun r => r.group_id == g.id && r.user_id == u) := by
    rw [Bool.eq_iff_iff]
    simp only [List.any_eq_true, List.mem_map, List.mem_filter, beq_iff_eq,
      Bool.and_eq_true]
    constructor
    · rintro ⟨a, ⟨r, ⟨hr, hu⟩, rfl⟩, hgid⟩
      exact ⟨r, hr, hgid, hu⟩
    · rintro ⟨r, hr, hgid, hu⟩
      exact ⟨r.group_id, ⟨r, ⟨hr, hu⟩, rfl⟩, hgid⟩
  have hM2 : (db.group_members.any fun r => r.user_id == u && r.group_id == g.id) =
      (db.group_members.any fun r => r.group_id == g.id && r.user_id == u) := by
    rw [Bool.eq_iff_iff]
    simp only [List.any_eq_true, Bool.and_eq_true]
    constructor
    · rintro ⟨r, hr, h1, h2⟩
      exact ⟨r, hr, h2, h1⟩
    · rintro ⟨r, hr, h1, h2⟩
      exact ⟨r, hr, h2, h1⟩
  have hCv : ((((db.groups.filter fun g2 => g2.created_by == u && canView db g2 u).map
      Group.id).any (· == g.id)) = true) ↔
      (g.created_by = u ∧ canView db g u = true) := by
    simp only [List.any_eq_true, List.mem_map, List.mem_filter, beq_iff_eq,
      Bool.and_eq_true]
    constructor
    · rintro ⟨a, ⟨g2, ⟨hg2, hcr, hcv⟩, rfl⟩, hid⟩
      have heq := hinj g2 hg2 g hg hid
      rw [heq] at hcr hcv
      exact ⟨hcr, hcv⟩
    · rintro ⟨hcr, hcv⟩
      exact ⟨g.id, ⟨g, ⟨hg, hcr, hcv⟩, rfl⟩, rfl⟩
  have hC : ((db.groups.any fun g2 => g2.created_by == u && g2.id == g.id) = true) ↔
      g.created_by = u := by
    simp only [List.any_eq_true, Bool.and_eq_true, beq_iff_eq]
    constructor
    · rintro ⟨g2, hg2, hcr, hid⟩
      have heq := hinj g2 hg2 g hg hid
      rw [heq] at hcr
      exact hcr
    · intro hcr
      exact ⟨g, hg, hcr, rfl⟩
  rw [Bool.eq_iff_iff]
  constructor
  · intro h
    rw [Bool.and_eq_true] at h
    obtain ⟨hnot, hview⟩ := h
    rw [Bool.not_eq_true'] at hnot
    rw [List.any_append, Bool.or_eq_false_iff] at hnot
    obtain ⟨h1, h2⟩ := hnot
    have hMfalse : (db.group_members.any fun r =>
        r.group_id == g.id && r.user_id == u) = false := by
      rw [← hM]
      exact h1
    have hP : (g.visibility == Visibility.pub) = true := by
      rw [canView, Bool.or_eq_true] at hview
      rcases hview with hv | hv
      · exact hv
      · rw [hMfalse] at hv
        exact absurd hv (by simp)
    have hCr : ¬(g.created_by = u) := by
      intro hcr
      have hvtrue : canView db g u = true := by
        rw [canView, Bool.or_eq_true]
        exact Or.inl hP
      have := hCv.mpr ⟨hcr, hvtrue⟩
      rw [h2] at this
      exact absurd this (by simp)
    rw [Bool.and_eq_true, Bool.not_eq_true']
    refine ⟨hP, ?_⟩
    rw [associated, Bool.or_eq_false_iff]
    constructor
    · rw [hM2]
      exact hMfalse
    · cases hCval : db.groups.any fun g2 => g2.created_by == u && g2.id == g.id
      · rfl
      · exact absurd (hC.mp hCval) hCr
  · intro h
    rw [Bool.and_eq_true] at h
    obtain ⟨hP, hna⟩ := h
    rw [Bool.not_eq_true'] at hna
    rw [associated, Bool.or_eq_false_iff] at hna
    obtain ⟨hM2f, hCf⟩ := hna
    have hMfalse : (db.group_members.any fun r =>
        r.group_id == g.id && r.user_id == u) = false := by
      rw [← hM2]
      exact hM2f
    have hCr : ¬(g.created_by = u) := by
      intro hcr
      have := hC.mpr hcr
      rw [hCf] at this
      exact absurd this (by simp)
    rw [Bool.and_eq_true, Bool.not_eq_true']
    refine ⟨?_, ?_⟩
    · rw [List.any_append, Bool.or_eq_false_iff]
      refine ⟨by rw [hM]; exact hMfalse, ?_⟩
      cases hCvval : (((db.groups.filter fun g2 =>
          g2.created_by == u && canView db g2 u).map Group.id).any (· == g.id))
      · rfl
      · exact absurd (hCv.mp hCvval).1 hCr
    · rw [canView, Bool.or_eq_true]
      exact Or.inl hP

/-- When group ids are unique (the table's primary key), `fetchPublicGroups`
equals the first twenty stored groups that are public and not associated
with the user, each tagged public. -/
theorem fetchPublicGroups_eq (db : DB) (u : Nat)
    (hn : (db.groups.map Group.id).Nodup) :
    fetchPublicGroups db u =
      ((db.groups.filter fun g =>
        g.visibility == Visibility.pub && !(associated db u g.id)).take 20).map
        fun g => { g with visibility := Visibility.pub } := by
  have hinj : ∀ g2 ∈ db.groups, ∀ g3 ∈ db.groups, g2.id = g3.id → g2 = g3 :=
    fun g2 h2 g3 h3 h => List.inj_on_of_nodup_map hn h2 h3 h
  unfold fetchPublicGroups
  simp only []
  rw [List.filter_filter]
  congr 1
  congr 1
  apply List.filter_congr
  intro g hg
  exact discovery_row_test db u hinj g hg

/-- C9 counterexample, refuting the claim at two concrete inputs. In
`dbCreatorOnly`, user 5 neither created nor belongs to the privately-marked
group 1, yet discovery returns nothing — the groups SELECT policy withholds
the private row from the fetch, so a group the claim says must appear does
not. In `dbManyGroups`, twenty-one public groups qualify for user 5 and
group 21 is omitted — the slice to twenty also refutes the claim's
"every". -/
theorem fetchPublicGroups_policy_cex :
    (associated dbCreatorOnly 5 1 = false ∧
      dbCreatorOnly.groups = [⟨1, 100, Visibility.priv⟩] ∧
      fetchPublicGroups dbCreatorOnly 5 = []) ∧
    (dbManyGroups.group_members = [] ∧
      (dbManyGroups.groups.any fun g => g.id == 21 && !(g.created_by == 5)) = true ∧
      ((fetchPublicGroups dbManyGroups 5).any fun g => g.id == 21) = false) :=
  ⟨⟨rfl, rfl, rfl⟩, ⟨rfl, by decide, by decide⟩⟩

/-- C9 (amended): with group ids unique, `fetchPublicGroups` returns the
first twenty (in fetched order) of the public groups the user neither
created nor belongs to, and each returned group is tagged with visibility
public. The client applies no visibility test of its own, but the groups
SELECT policy restricts its fetch to rows that are public or the user's
own memberships, so privately-marked groups of others never reach the
discovery list: every returned group corresponds to a stored public
unassociated group, and whenever at most twenty groups qualify, every
public unassociated group appears, tagged public. -/
theorem fetchPublicGroups_spec (db : DB) (u : Nat)
    (hn : (db.groups.map Group.id).Nodup) :
    (∀ g ∈ fetchPublicGroups db u, g.visibility = Visibility.pub) ∧
    (∀ g ∈ fetchPublicGroups db u, ∃ g0 ∈ db.groups,
      g0.visibility = Visibility.pub ∧ associated db u g0.id = false ∧
      g = { g0 with visibility := Visibility.pub }) ∧
    ((db.groups.filter fun g =>
        g.visibility == Visibility.pub && !(associated db u g.id)).length ≤ 20 →
      ∀ g0 ∈ db.groups, g0.visibility = Visibility.pub →
        associated db u g0.id = false →
          { g0 with visibility := Visibility.pub } ∈ fetchPublicGroups db u) := by
  rw [fetchPublicGroups_eq db u hn]
  refine ⟨?_, ?_, ?_⟩
  · intro g hg
    rw [List.mem_map] at hg
    obtain ⟨g0, _, rfl⟩ := hg
    rfl
  · intro g hg
    rw [List.mem_map] at hg
    obtain ⟨g0, hg0, rfl⟩ := hg
    have hmem : g0 ∈ db.groups.filter fun g =>
        g.visibility == Visibility.pub && !(associated db u g.id) :=
      List.take_subset _ _ hg0
    rw [List.mem_filter, Bool.and_eq_true, Bool.not_eq_true'] at hmem
    exact ⟨g0, hmem.1, by simpa using hmem.2.1, hmem.2.2, rfl⟩
  · intro hlen g0 hg0 hpub hassoc
    rw [List.take_of_length_le hlen, List.mem_map]
    refine ⟨g0, List.mem_filter.mpr ⟨hg0, ?_⟩, rfl⟩
    rw [Bool.and_eq_true, Bool.not_eq_true']
    exact ⟨by simp [hpub], hassoc⟩

/-- Witness for the amended C9 statement at a concrete input: the single
public group of an unrelated user appears in user 5's discovery list,
tagged public. -/
theorem fetchPublicGroups_spec_w :
    (⟨1, 9, Visibility.pub⟩ : Group) ∈
      fetchPublicGroups ⟨[⟨1, 9, Visibility.pub⟩], []⟩ 5 :=
  (fetchPublicGroups_spec ⟨[⟨1, 9, Visibility.pub⟩], []⟩ 5 (by decide)).2.2 (by decide)
    ⟨1, 9, Visibility.pub⟩ (List.mem_singleton.mpr rfl) rfl rfl

end CampusConnect
